import Mathlib

/-!
Shallow embedding of the Heartspace backend (src/server.js) session-enrollment
and like-toggle subsystems, together with the store-level constraints of
src/prisma/migrations/20251119140603_add_sessions/migration.sql, and proofs of
the specification claims about them.

The relation store is modelled as lists of rows plus serial counters; each
Express handler becomes a pure function from a request and a store state to an
HTTP-level result and the successor state.
-/

namespace Heartspace

/-- Row of the Session table (migration 20251119140603_add_sessions).
`maxAttendees` is an Int because the handler stores `parseInt(maxAttendees)`
without any positivity validation; `date` and `time` are kept as opaque
strings. -/
structure SessionRec where
  id : Nat
  title : String
  date : String
  time : String
  maxAttendees : Int
  userId : Nat
deriving DecidableEq

/-- Row of the SessionAttendee table (migration 20251119140603_add_sessions). -/
structure AttendeeRec where
  id : Nat
  sessionId : Nat
  userId : Nat
deriving DecidableEq

/-- Row of the Artwork table (prisma model Artwork, used by server.js). -/
structure ArtworkRec where
  id : Nat
  title : String
  userId : Nat
deriving DecidableEq

/-- Row of the Like table: the (userId, artworkId) relation. -/
structure LikeRec where
  id : Nat
  userId : Nat
  artworkId : Nat
deriving DecidableEq

/-- Row of the Comment table. -/
structure CommentRec where
  id : Nat
  content : String
  userId : Nat
  artworkId : Nat
deriving DecidableEq

/-- The relation-store state: one list of rows per table and the serial id
counters for the tables the embedded handlers insert into. -/
structure DB where
  sessions : List SessionRec
  sessionAttendees : List AttendeeRec
  artworks : List ArtworkRec
  likes : List LikeRec
  comments : List CommentRec
  nextSessionId : Nat
  nextAttendeeId : Nat
  nextLikeId : Nat
deriving DecidableEq

/-- The empty store: no rows, serial counters at 1. -/
def DB.empty : DB := ⟨[], [], [], [], [], 1, 1, 1⟩

/-- prisma.session.findUnique where id = sid. -/
def sessionFindUnique (db : DB) (sid : Nat) : Option SessionRec :=
  db.sessions.find? (fun s => s.id == sid)

/-- The attendee rows of one session (the include: attendees of findUnique). -/
def sessionAttendeesOf (db : DB) (sid : Nat) : List AttendeeRec :=
  db.sessionAttendees.filter (fun a => a.sessionId == sid)

/-- Insertion of one SessionAttendee row with the next serial id. -/
def sessionAttendeeInsert (db : DB) (sid uid : Nat) : DB :=
  { db with
    sessionAttendees := db.sessionAttendees ++ [⟨db.nextAttendeeId, sid, uid⟩],
    nextAttendeeId := db.nextAttendeeId + 1 }

/-- prisma.sessionAttendee.create: insert subject to the store-level
constraints of migration 20251119140603_add_sessions — the unique index
SessionAttendee_sessionId_userId_key on (sessionId, userId) and the foreign
key SessionAttendee_sessionId_fkey. A violating insert throws. -/
def sessionAttendeeCreate (db : DB) (sid uid : Nat) : Except String DB :=
  if (sessionFindUnique db sid).isNone then
    .error "foreign key constraint violated"
  else if db.sessionAttendees.any (fun a => a.sessionId == sid && a.userId == uid) then
    .error "unique constraint violated"
  else
    .ok (sessionAttendeeInsert db sid uid)

/-- prisma.sessionAttendee.deleteMany where sessionId = sid and userId = uid. -/
def sessionAttendeeDeleteManyPair (db : DB) (sid uid : Nat) : DB :=
  { db with
    sessionAttendees :=
      db.sessionAttendees.filter (fun a => !(a.sessionId == sid && a.userId == uid)) }

/-- prisma.sessionAttendee.deleteMany where sessionId = sid. -/
def sessionAttendeeDeleteManySession (db : DB) (sid : Nat) : DB :=
  { db with
    sessionAttendees := db.sessionAttendees.filter (fun a => !(a.sessionId == sid)) }

/-- prisma.session.delete where id = sid (the handler has already removed the
session's attendee rows; the sessionId foreign key of the migration cascades,
so only the session row remains to delete). -/
def sessionDelete (db : DB) (sid : Nat) : DB :=
  { db with sessions := db.sessions.filter (fun t => !(t.id == sid)) }

/-- An HTTP result whose success body is a session with its attendee list:
`ok` is res.json(session) with status 200, `okNull` is res.json(null) (what
Express would send if a refetch returned nothing), `err` is
res.status(code).json(error message). -/
inductive SessionRes where
  | ok (session : SessionRec) (attendees : List AttendeeRec)
  | okNull
  | err (status : Nat) (msg : String)
deriving DecidableEq

/-- An HTTP result whose success body is a confirmation message. -/
inductive MsgRes where
  | ok (msg : String)
  | err (status : Nat) (msg : String)
deriving DecidableEq

/-- Insertion of one Session row together with the creator attendee row, as
performed by the nested prisma.session.create of the create handler. -/
def sessionInsertWithCreator (db : DB) (userId : Nat) (title date time : String)
    (cap : Int) : SessionRec × AttendeeRec × DB :=
  let s : SessionRec :=
    { id := db.nextSessionId, title := title, date := date, time := time,
      maxAttendees := cap, userId := userId }
  let a : AttendeeRec := { id := db.nextAttendeeId, sessionId := db.nextSessionId, userId := userId }
  let db2 : DB :=
    { db with
      sessions := db.sessions ++ [s],
      sessionAttendees := db.sessionAttendees ++ [a],
      nextSessionId := db.nextSessionId + 1,
      nextAttendeeId := db.nextAttendeeId + 1 }
  (s, a, db2)

/-- POST /api/sessions (server.js lines 470-508): creates the Session row and,
nested in the same prisma.session.create call, the creator's SessionAttendee
row. `maxAttendees` is the value of parseInt(req.body.maxAttendees): `none`
models NaN (non-numeric input), which makes the store insert throw and the
catch block answer 500. The handler performs no positivity validation. -/
def createSession (db : DB) (userId : Nat) (title date time : String)
    (maxAttendees : Option Int) : SessionRes × DB :=
  match maxAttendees with
  | none => (.err 500 "Failed to create session", db)
  | some cap =>
    let r := sessionInsertWithCreator db userId title date time cap
    (.ok r.1 [r.2.1], r.2.2)

/-- POST /api/sessions/:id/join (server.js lines 533-582): 404 if the session
is missing, 400 "Already joined this session" if the caller already has an
attendee row, 400 "Session is full" if attendees.length >= maxAttendees,
otherwise insert and answer with the refetched session. -/
def joinSession (db : DB) (sid userId : Nat) : SessionRes × DB :=
  match sessionFindUnique db sid with
  | none => (.err 404 "Session not found", db)
  | some s =>
    if (sessionAttendeesOf db sid).any (fun a => a.userId == userId) then
      (.err 400 "Already joined this session", db)
    else if s.maxAttendees ≤ ((sessionAttendeesOf db sid).length : Int) then
      (.err 400 "Session is full", db)
    else
      match sessionAttendeeCreate db sid userId with
      | .error _ => (.err 500 "Failed to join session", db)
      | .ok db2 =>
        match sessionFindUnique db2 sid with
        | some s2 => (.ok s2 (sessionAttendeesOf db2 sid), db2)
        | none => (.okNull, db2)

/-- POST /api/sessions/:id/leave (server.js lines 585-622): when the session
does not exist the handler dereferences null (`session.userId` with session
null throws a TypeError) and the catch block answers 500 "Failed to leave
session" — there is no 404 branch. A creator gets 400; otherwise
sessionAttendee.deleteMany removes the (sid, userId) rows and the refetched
session is returned. -/
def leaveSession (db : DB) (sid userId : Nat) : SessionRes × DB :=
  match sessionFindUnique db sid with
  | none => (.err 500 "Failed to leave session", db)
  | some s =>
    if s.userId == userId then
      (.err 400 "Cannot leave a session you created", db)
    else
      match sessionFindUnique (sessionAttendeeDeleteManyPair db sid userId) sid with
      | some s2 =>
        (.ok s2 (sessionAttendeesOf (sessionAttendeeDeleteManyPair db sid userId) sid),
          sessionAttendeeDeleteManyPair db sid userId)
      | none => (.okNull, sessionAttendeeDeleteManyPair db sid userId)

/-- DELETE /api/sessions/:id (server.js lines 625-657): 404 if missing, 403 if
the caller is not the creator, otherwise deleteMany of the session's attendee
rows followed by deletion of the session row. -/
def deleteSession (db : DB) (sid userId : Nat) : MsgRes × DB :=
  match sessionFindUnique db sid with
  | none => (.err 404 "Session not found", db)
  | some s =>
    if s.userId != userId then
      (.err 403 "You can only delete your own sessions", db)
    else
      (.ok "Session deleted successfully",
        sessionDelete (sessionAttendeeDeleteManySession db sid) sid)

/-- prisma.artwork.findUnique where id = aid. -/
def artworkFindUnique (db : DB) (aid : Nat) : Option ArtworkRec :=
  db.artworks.find? (fun w => w.id == aid)

/-- prisma.like.findUnique on the composite key userId_artworkId. -/
def likeFindUnique (db : DB) (uid aid : Nat) : Option LikeRec :=
  db.likes.find? (fun l => l.userId == uid && l.artworkId == aid)

/-- Insertion of one Like row with the next serial id. -/
def likeInsert (db : DB) (uid aid : Nat) : DB :=
  { db with
    likes := db.likes ++ [⟨db.nextLikeId, uid, aid⟩],
    nextLikeId := db.nextLikeId + 1 }

/-- Modelled from the spec: the prisma schema for Like is not under src (only
the sessions migration is), so prisma.like.create is given the store-level
constraints stated in spec sections 3 and 6 — the (userId, artworkId) unique
constraint enforced at the store layer, and the foreign key making a Like a
relation to an existing Artwork. An insert violating either throws, which the
handler's catch turns into a 500 response. -/
def likeCreate (db : DB) (uid aid : Nat) : Except String DB :=
  if (artworkFindUnique db aid).isNone then
    .error "foreign key constraint violated"
  else if (likeFindUnique db uid aid).isSome then
    .error "unique constraint violated"
  else
    .ok (likeInsert db uid aid)

/-- prisma.like.delete where id = lid. -/
def likeDelete (db : DB) (lid : Nat) : DB :=
  { db with likes := db.likes.filter (fun x => !(x.id == lid)) }

/-- An HTTP result for the like toggle: res.json of message and liked flag,
or an error status. -/
inductive LikeRes where
  | ok (message : String) (liked : Bool)
  | err (status : Nat) (msg : String)
deriving DecidableEq

/-- POST /api/artworks/:id/like (server.js lines 225-258): looks up the
(userId, artworkId) like; if present deletes it by id and answers message
"Unliked" with liked false; if absent inserts and answers "Liked" with liked
true. There is no artwork existence check and no 404 branch; a store
rejection of the insert is caught and answered 500. -/
def toggleLike (db : DB) (uid aid : Nat) : LikeRes × DB :=
  match likeFindUnique db uid aid with
  | some l => (.ok "Unliked" false, likeDelete db l.id)
  | none =>
    match likeCreate db uid aid with
    | .error _ => (.err 500 "Server error", db)
    | .ok db2 => (.ok "Liked" true, db2)

/-- prisma.like.deleteMany where artworkId = aid. -/
def likeDeleteManyArtwork (db : DB) (aid : Nat) : DB :=
  { db with likes := db.likes.filter (fun l => !(l.artworkId == aid)) }

/-- prisma.comment.deleteMany where artworkId = aid. -/
def commentDeleteManyArtwork (db : DB) (aid : Nat) : DB :=
  { db with comments := db.comments.filter (fun c => !(c.artworkId == aid)) }

/-- prisma.artwork.delete where id = aid. -/
def artworkDelete (db : DB) (aid : Nat) : DB :=
  { db with artworks := db.artworks.filter (fun x => !(x.id == aid)) }

/-- DELETE /api/artworks/:id (server.js lines 290-327): 404 if missing, 403 if
the caller is not the owner, otherwise deleteMany of the artwork's likes, then
deleteMany of its comments, then deletion of the artwork row. -/
def deleteArtwork (db : DB) (aid userId : Nat) : MsgRes × DB :=
  match artworkFindUnique db aid with
  | none => (.err 404 "Artwork not found", db)
  | some w =>
    if w.userId != userId then
      (.err 403 "You can only delete your own artworks", db)
    else
      (.ok "Artwork deleted successfully",
        artworkDelete (commentDeleteManyArtwork (likeDeleteManyArtwork db aid) aid) aid)

/-- One session-subsystem request, for reasoning about arbitrary operation
sequences. -/
inductive Op where
  | create (userId : Nat) (title date time : String) (maxAttendees : Option Int)
  | join (sid userId : Nat)
  | leave (sid userId : Nat)
  | delete (sid userId : Nat)
deriving DecidableEq

/-- The state transition of one request (the response is discarded). -/
def step (db : DB) : Op → DB
  | .create u t d tm cap => (createSession db u t d tm cap).2
  | .join sid u => (joinSession db sid u).2
  | .leave sid u => (leaveSession db sid u).2
  | .delete sid u => (deleteSession db sid u).2

/-- Run a sequence of requests from a state. -/
def run (db : DB) (ops : List Op) : DB := ops.foldl step db

/-- Number of SessionAttendee rows of session sid. -/
def attendeeCount (db : DB) (sid : Nat) : Nat := (sessionAttendeesOf db sid).length

/-- Number of SessionAttendee rows with the exact pair (sid, uid). -/
def pairCount (db : DB) (sid uid : Nat) : Nat :=
  db.sessionAttendees.countP (fun a => a.sessionId == sid && a.userId == uid)

/-- Whether the pair (sid, uid) is present in SessionAttendee. -/
def isAttendee (db : DB) (sid uid : Nat) : Bool :=
  db.sessionAttendees.any (fun a => a.sessionId == sid && a.userId == uid)

/-- Whether artwork aid exists. -/
def artworkExists (db : DB) (aid : Nat) : Bool := (artworkFindUnique db aid).isSome

/-- Whether the (uid, aid) like relation exists. -/
def likeExists (db : DB) (uid aid : Nat) : Bool := (likeFindUnique db uid aid).isSome

/-- Number of Like rows with the exact pair (uid, aid). -/
def likeCount (db : DB) (uid aid : Nat) : Nat :=
  db.likes.countP (fun l => l.userId == uid && l.artworkId == aid)

/-- Store integrity preserved by every session-subsystem request: session ids
stay below the serial counter and identify their row uniquely, attendee rows
reference session ids below the counter, each (sessionId, userId) pair occurs
at most once (the SessionAttendee_sessionId_userId_key unique index), and
every stored session's creator has an attendee row. -/
structure BaseInv (db : DB) : Prop where
  sid_lt : ∀ s ∈ db.sessions, s.id < db.nextSessionId
  sid_inj : ∀ s ∈ db.sessions, ∀ t ∈ db.sessions, s.id = t.id → s = t
  asid_lt : ∀ a ∈ db.sessionAttendees, a.sessionId < db.nextSessionId
  pairs : ∀ sid uid, pairCount db sid uid ≤ 1
  creator : ∀ s ∈ db.sessions, isAttendee db s.id s.userId = true

/-- Capacity invariant: every stored session with positive capacity has at
most maxAttendees attendee rows. -/
def CapInv (db : DB) : Prop :=
  ∀ s ∈ db.sessions, 1 ≤ s.maxAttendees → (attendeeCount db s.id : Int) ≤ s.maxAttendees

theorem attendeeCount_eq_countP (db : DB) (sid : Nat) :
    attendeeCount db sid = db.sessionAttendees.countP (fun a => a.sessionId == sid) := by
  simp [attendeeCount, sessionAttendeesOf, List.countP_eq_length_filter]

theorem isAttendee_eq_false_iff (db : DB) (sid uid : Nat) :
    isAttendee db sid uid = false ↔ pairCount db sid uid = 0 := by
  simp [isAttendee, pairCount, List.countP_eq_zero, List.any_eq_true]

theorem any_filter_userId (db : DB) (sid uid : Nat) :
    (sessionAttendeesOf db sid).any (fun a => a.userId == uid) = isAttendee db sid uid := by
  simp [sessionAttendeesOf, isAttendee, List.any_filter]

theorem attendeeCount_insert (db : DB) (sid uid sid0 : Nat) :
    attendeeCount (sessionAttendeeInsert db sid uid) sid0 =
      attendeeCount db sid0 + (if sid = sid0 then 1 else 0) := by
  simp only [attendeeCount_eq_countP, sessionAttendeeInsert, List.countP_append,
    List.countP_cons, List.countP_nil]
  by_cases h : sid = sid0 <;> simp [h]

theorem pairCount_insert (db : DB) (sid uid sid0 uid0 : Nat) :
    pairCount (sessionAttendeeInsert db sid uid) sid0 uid0 =
      pairCount db sid0 uid0 + (if sid = sid0 ∧ uid = uid0 then 1 else 0) := by
  simp only [pairCount, sessionAttendeeInsert, List.countP_append, List.countP_cons,
    List.countP_nil]
  by_cases h1 : sid = sid0 <;> by_cases h2 : uid = uid0 <;> simp [h1, h2]

theorem isAttendee_insert (db : DB) (sid uid sid0 uid0 : Nat) :
    isAttendee (sessionAttendeeInsert db sid uid) sid0 uid0 =
      (isAttendee db sid0 uid0 || (sid == sid0 && uid == uid0)) := by
  simp [isAttendee, sessionAttendeeInsert, List.any_append, Bool.beq_comm]

theorem attendeeCount_deletePair_le (db : DB) (sid uid sid0 : Nat) :
    attendeeCount (sessionAttendeeDeleteManyPair db sid uid) sid0 ≤ attendeeCount db sid0 := by
  simp only [attendeeCount_eq_countP, sessionAttendeeDeleteManyPair]
  exact (List.filter_sublist _).countP_le _

theorem pairCount_deletePair_le (db : DB) (sid uid sid0 uid0 : Nat) :
    pairCount (sessionAttendeeDeleteManyPair db sid uid) sid0 uid0 ≤ pairCount db sid0 uid0 := by
  simp only [pairCount, sessionAttendeeDeleteManyPair]
  exact (List.filter_sublist _).countP_le _

theorem attendeeCount_deleteSession_le (db : DB) (sid sid0 : Nat) :
    attendeeCount (sessionAttendeeDeleteManySession db sid) sid0 ≤ attendeeCount db sid0 := by
  simp only [attendeeCount_eq_countP, sessionAttendeeDeleteManySession]
  exact (List.filter_sublist _).countP_le _

theorem pairCount_deleteSession_le (db : DB) (sid sid0 uid0 : Nat) :
    pairCount (sessionAttendeeDeleteManySession db sid) sid0 uid0 ≤ pairCount db sid0 uid0 := by
  simp only [pairCount, sessionAttendeeDeleteManySession]
  exact (List.filter_sublist _).countP_le _

theorem createSession_state (db : DB) (u : Nat) (t d tm : String) (cap : Option Int) :
    (createSession db u t d tm cap).2 = db ∨
    ∃ n, cap = some n ∧
      (createSession db u t d tm cap).2 = (sessionInsertWithCreator db u t d tm n).2.2 := by
  cases cap with
  | none => exact Or.inl rfl
  | some n => exact Or.inr ⟨n, rfl, rfl⟩

theorem joinSession_state (db : DB) (sid u : Nat) :
    (joinSession db sid u).2 = db ∨
    ((joinSession db sid u).2 = sessionAttendeeInsert db sid u ∧
      isAttendee db sid u = false ∧
      ∃ s, sessionFindUnique db sid = some s ∧
        (attendeeCount db sid : Int) < s.maxAttendees) := by
  unfold joinSession
  split
  next hf => exact Or.inl rfl
  next s hf =>
    split
    next hA => exact Or.inl rfl
    next hA =>
      split
      next hC => exact Or.inl rfl
      next hC =>
        have hA2 : isAttendee db sid u = false := by
          rw [← any_filter_userId]
          exact Bool.eq_false_iff.mpr hA
        have hcr : sessionAttendeeCreate db sid u = .ok (sessionAttendeeInsert db sid u) := by
          unfold sessionAttendeeCreate
          rw [hf]
          have hA3 : db.sessionAttendees.any
              (fun a => a.sessionId == sid && a.userId == u) = false := hA2
          simp [hA3]
        have hlt : (attendeeCount db sid : Int) < s.maxAttendees := Int.not_le.mp hC
        split
        next e he => exact Or.inl rfl
        next db2 hok =>
          have hdb2 : db2 = sessionAttendeeInsert db sid u := by
            rw [hcr] at hok
            exact (Except.ok.inj hok).symm
          subst hdb2
          split
          next s2 hre => exact Or.inr ⟨rfl, hA2, s, hf, hlt⟩
          next hre => exact Or.inr ⟨rfl, hA2, s, hf, hlt⟩

theorem leaveSession_state (db : DB) (sid u : Nat) :
    (leaveSession db sid u).2 = db ∨
    ((leaveSession db sid u).2 = sessionAttendeeDeleteManyPair db sid u ∧
      ∃ s, sessionFindUnique db sid = some s ∧ s.userId ≠ u) := by
  unfold leaveSession
  cases hf : sessionFindUnique db sid with
  | none => exact Or.inl rfl
  | some s =>
    simp only
    cases hc : (s.userId == u) with
    | true => exact Or.inl rfl
    | false =>
      have hne : s.userId ≠ u := by simpa using hc
      cases sessionFindUnique (sessionAttendeeDeleteManyPair db sid u) sid with
      | none => exact Or.inr ⟨rfl, s, rfl, hne⟩
      | some s2 => exact Or.inr ⟨rfl, s, rfl, hne⟩

theorem deleteSession_state (db : DB) (sid u : Nat) :
    (deleteSession db sid u).2 = db ∨
    (deleteSession db sid u).2 = sessionDelete (sessionAttendeeDeleteManySession db sid) sid := by
  unfold deleteSession
  cases hf : sessionFindUnique db sid with
  | none => exact Or.inl rfl
  | some s =>
    simp only
    cases hc : (s.userId != u) with
    | true => exact Or.inl rfl
    | false => exact Or.inr rfl

theorem mem_sessions_of_findUnique (db : DB) (sid : Nat) (s : SessionRec)
    (hf : sessionFindUnique db sid = some s) : s ∈ db.sessions ∧ s.id = sid := by
  refine ⟨List.mem_of_find?_eq_some hf, ?_⟩
  have := List.find?_some hf
  simpa using this

theorem baseInv_insertWithCreator (db : DB) (u : Nat) (t d tm : String) (cap : Int)
    (h : BaseInv db) : BaseInv (sessionInsertWithCreator db u t d tm cap).2.2 := by
  constructor
  · intro s hs
    rcases List.mem_append.mp hs with h1 | h1
    · exact Nat.lt_succ_of_lt (h.sid_lt s h1)
    · rw [List.mem_singleton.mp h1]
      exact Nat.lt_succ_self _
  · intro s hs t2 ht2 heq
    rcases List.mem_append.mp hs with h1 | h1 <;> rcases List.mem_append.mp ht2 with h2 | h2
    · exact h.sid_inj s h1 t2 h2 heq
    · rw [List.mem_singleton.mp h2] at heq
      exact absurd heq (Nat.ne_of_lt (h.sid_lt s h1))
    · rw [List.mem_singleton.mp h1] at heq
      exact absurd heq.symm (Nat.ne_of_lt (h.sid_lt t2 h2))
    · rw [List.mem_singleton.mp h1, List.mem_singleton.mp h2]
  · intro a ha
    rcases List.mem_append.mp ha with h1 | h1
    · exact Nat.lt_succ_of_lt (h.asid_lt a h1)
    · rw [List.mem_singleton.mp h1]
      exact Nat.lt_succ_self _
  · intro sid uid
    have hz : db.sessionAttendees.countP
        (fun a => a.sessionId == sid && a.userId == uid) = pairCount db sid uid := rfl
    simp only [pairCount, sessionInsertWithCreator, List.countP_append, List.countP_cons,
      List.countP_nil]
    by_cases hcase : (db.nextSessionId == sid && u == uid) = true
    · have hsid : sid = db.nextSessionId := by
        have := (Bool.and_eq_true _ _).mp hcase
        have h1 := this.1
        simp at h1
        omega
      have hzero : pairCount db sid uid = 0 := by
        rw [pairCount]
        refine List.countP_eq_zero.mpr ?_
        intro a ha hp
        have := (Bool.and_eq_true _ _).mp hp
        have h1 := this.1
        simp at h1
        have := h.asid_lt a ha
        omega
      rw [hz, hzero]
      simp [hcase]
    · have hcase2 : (db.nextSessionId == sid && u == uid) = false :=
        Bool.eq_false_iff.mpr hcase
      rw [hz]
      simp [hcase2]
      exact h.pairs sid uid
  · intro s hs
    rcases List.mem_append.mp hs with h1 | h1
    · have := h.creator s h1
      simp only [isAttendee, sessionInsertWithCreator, List.any_append]
      rw [isAttendee] at this
      rw [this]
      rfl
    · rw [List.mem_singleton.mp h1]
      simp [isAttendee, sessionInsertWithCreator, List.any_append]

theorem baseInv_attendeeInsert (db : DB) (sid u : Nat) (s : SessionRec)
    (h : BaseInv db) (hf : sessionFindUnique db sid = some s)
    (hA : isAttendee db sid u = false) :
    BaseInv (sessionAttendeeInsert db sid u) := by
  obtain ⟨hmem, hsid⟩ := mem_sessions_of_findUnique db sid s hf
  have hlt : sid < db.nextSessionId := hsid ▸ h.sid_lt s hmem
  constructor
  · exact h.sid_lt
  · exact h.sid_inj
  · intro a ha
    rcases List.mem_append.mp ha with h1 | h1
    · exact h.asid_lt a h1
    · rw [List.mem_singleton.mp h1]
      exact hlt
  · intro sid0 uid0
    rw [pairCount_insert]
    by_cases hcase : sid = sid0 ∧ u = uid0
    · obtain ⟨rfl, rfl⟩ := hcase
      have hzero : pairCount db sid u = 0 := (isAttendee_eq_false_iff db sid u).mp hA
      simp [hzero]
    · simp [hcase]
      exact h.pairs sid0 uid0
  · intro s0 hs0
    rw [isAttendee_insert, h.creator s0 hs0]
    rfl

theorem baseInv_deletePair (db : DB) (sid u : Nat) (s : SessionRec)
    (h : BaseInv db) (hf : sessionFindUnique db sid = some s) (hne : s.userId ≠ u) :
    BaseInv (sessionAttendeeDeleteManyPair db sid u) := by
  obtain ⟨hmem, hsid⟩ := mem_sessions_of_findUnique db sid s hf
  constructor
  · exact h.sid_lt
  · exact h.sid_inj
  · intro a ha
    exact h.asid_lt a (List.mem_of_mem_filter ha)
  · intro sid0 uid0
    exact le_trans (pairCount_deletePair_le db sid u sid0 uid0) (h.pairs sid0 uid0)
  · intro s0 hs0
    have hcrow := h.creator s0 hs0
    rw [isAttendee, List.any_eq_true] at hcrow
    obtain ⟨a, ha, hp⟩ := hcrow
    have hp2 := (Bool.and_eq_true _ _).mp hp
    have hpa : a.sessionId = s0.id := by simpa using hp2.1
    have hpu : a.userId = s0.userId := by simpa using hp2.2
    rw [isAttendee, List.any_eq_true]
    refine ⟨a, ?_, hp⟩
    simp only [sessionAttendeeDeleteManyPair, List.mem_filter]
    refine ⟨ha, ?_⟩
    simp only [Bool.not_eq_eq_eq_not, Bool.not_true, Bool.and_eq_false_iff]
    by_cases hid : a.sessionId = sid
    · have hs0id : s0.id = sid := hpa ▸ hid
      have : s0 = s := h.sid_inj s0 hs0 s hmem (by rw [hs0id, hsid])
      right
      have : a.userId ≠ u := by
        rw [hpu, this]
        exact hne
      simpa using this
    · left
      simpa using hid

theorem baseInv_sessionDelete (db : DB) (sid : Nat) (h : BaseInv db) :
    BaseInv (sessionDelete (sessionAttendeeDeleteManySession db sid) sid) := by
  constructor
  · intro s hs
    exact h.sid_lt s (List.mem_of_mem_filter hs)
  · intro s hs t2 ht2 heq
    exact h.sid_inj s (List.mem_of_mem_filter hs) t2 (List.mem_of_mem_filter ht2) heq
  · intro a ha
    exact h.asid_lt a (List.mem_of_mem_filter ha)
  · intro sid0 uid0
    exact le_trans (pairCount_deleteSession_le db sid sid0 uid0) (h.pairs sid0 uid0)
  · intro s0 hs0
    have hs0mem := List.mem_of_mem_filter hs0
    have hs0ne : s0.id ≠ sid := by
      have := (List.mem_filter.mp hs0).2
      simpa using this
    have hcrow := h.creator s0 hs0mem
    rw [isAttendee, List.any_eq_true] at hcrow
    obtain ⟨a, ha, hp⟩ := hcrow
    have hpa : a.sessionId = s0.id := by
      have := (Bool.and_eq_true _ _).mp hp
      simpa using this.1
    rw [isAttendee, List.any_eq_true]
    refine ⟨a, ?_, hp⟩
    simp only [sessionDelete, sessionAttendeeDeleteManySession, List.mem_filter]
    refine ⟨ha, ?_⟩
    simp [hpa, hs0ne]

theorem baseInv_step (db : DB) (op : Op) (h : BaseInv db) : BaseInv (step db op) := by
  cases op with
  | create u t d tm cap =>
    show BaseInv (createSession db u t d tm cap).2
    rcases createSession_state db u t d tm cap with he | ⟨n, _, he⟩
    · rw [he]; exact h
    · rw [he]; exact baseInv_insertWithCreator db u t d tm n h
  | join sid u =>
    show BaseInv (joinSession db sid u).2
    rcases joinSession_state db sid u with he | ⟨he, hA, s, hf, _⟩
    · rw [he]; exact h
    · rw [he]; exact baseInv_attendeeInsert db sid u s h hf hA
  | leave sid u =>
    show BaseInv (leaveSession db sid u).2
    rcases leaveSession_state db sid u with he | ⟨he, s, hf, hne⟩
    · rw [he]; exact h
    · rw [he]; exact baseInv_deletePair db sid u s h hf hne
  | delete sid u =>
    show BaseInv (deleteSession db sid u).2
    rcases deleteSession_state db sid u with he | he
    · rw [he]; exact h
    · rw [he]; exact baseInv_sessionDelete db sid h

theorem baseInv_empty : BaseInv DB.empty := by
  constructor
  · intro s hs
    simp [DB.empty] at hs
  · intro s hs
    simp [DB.empty] at hs
  · intro a ha
    simp [DB.empty] at ha
  · intro sid uid
    simp [pairCount, DB.empty]
  · intro s hs
    simp [DB.empty] at hs

theorem baseInv_run (db : DB) (ops : List Op) (h : BaseInv db) : BaseInv (run db ops) := by
  induction ops generalizing db with
  | nil => exact h
  | cons op ops ih => exact ih (step db op) (baseInv_step db op h)

theorem capInv_insertWithCreator (db : DB) (u : Nat) (t d tm : String) (cap : Int)
    (h : BaseInv db) (hc : CapInv db) :
    CapInv (sessionInsertWithCreator db u t d tm cap).2.2 := by
  intro s hs hpos
  have hcnt : ∀ sid0, attendeeCount (sessionInsertWithCreator db u t d tm cap).2.2 sid0 =
      db.sessionAttendees.countP (fun a => a.sessionId == sid0) +
        (if db.nextSessionId = sid0 then 1 else 0) := by
    intro sid0
    simp only [attendeeCount_eq_countP, sessionInsertWithCreator, List.countP_append,
      List.countP_cons, List.countP_nil]
    by_cases hcase : db.nextSessionId = sid0 <;> simp [hcase]
  rcases List.mem_append.mp hs with h1 | h1
  · have hne : db.nextSessionId ≠ s.id := (Nat.ne_of_lt (h.sid_lt s h1)).symm
    rw [hcnt, if_neg hne]
    have := hc s h1 hpos
    rw [attendeeCount_eq_countP] at this
    simpa using this
  · rw [List.mem_singleton.mp h1]
    have hz : db.sessionAttendees.countP (fun a => a.sessionId == db.nextSessionId) = 0 := by
      refine List.countP_eq_zero.mpr ?_
      intro a ha hp
      have h1 : a.sessionId = db.nextSessionId := by simpa using hp
      have := h.asid_lt a ha
      omega
    rw [hcnt]
    simp only [hz, if_pos rfl]
    rw [List.mem_singleton.mp h1] at hpos
    simpa using hpos

theorem capInv_attendeeInsert (db : DB) (sid u : Nat) (s : SessionRec)
    (h : BaseInv db) (hc : CapInv db) (hf : sessionFindUnique db sid = some s)
    (hlt : (attendeeCount db sid : Int) < s.maxAttendees) :
    CapInv (sessionAttendeeInsert db sid u) := by
  obtain ⟨hmem, hsid⟩ := mem_sessions_of_findUnique db sid s hf
  intro t0 ht0 hpos
  rw [attendeeCount_insert]
  by_cases hcase : sid = t0.id
  · have ht0s : t0 = s := h.sid_inj t0 ht0 s hmem (by rw [← hcase, hsid])
    rw [if_pos hcase, ← hcase]
    rw [ht0s]
    push_cast
    omega
  · rw [if_neg hcase]
    simpa using hc t0 ht0 hpos

theorem capInv_deletePair (db : DB) (sid u : Nat) (hc : CapInv db) :
    CapInv (sessionAttendeeDeleteManyPair db sid u) := by
  intro s hs hpos
  have h1 := attendeeCount_deletePair_le db sid u s.id
  have h2 := hc s hs hpos
  have : (attendeeCount (sessionAttendeeDeleteManyPair db sid u) s.id : Int) ≤
      (attendeeCount db s.id : Int) := by
    exact_mod_cast h1
  exact le_trans this h2

theorem capInv_sessionDelete (db : DB) (sid : Nat) (hc : CapInv db) :
    CapInv (sessionDelete (sessionAttendeeDeleteManySession db sid) sid) := by
  intro s hs hpos
  have hsmem := List.mem_of_mem_filter hs
  have h1 := attendeeCount_deleteSession_le db sid s.id
  have h2 := hc s hsmem hpos
  have h3 : attendeeCount (sessionDelete (sessionAttendeeDeleteManySession db sid) sid) s.id =
      attendeeCount (sessionAttendeeDeleteManySession db sid) s.id := rfl
  rw [h3]
  have : (attendeeCount (sessionAttendeeDeleteManySession db sid) s.id : Int) ≤
      (attendeeCount db s.id : Int) := by
    exact_mod_cast h1
  exact le_trans this h2

theorem capInv_step (db : DB) (op : Op) (hb : BaseInv db) (hc : CapInv db) :
    CapInv (step db op) := by
  cases op with
  | create u t d tm cap =>
    show CapInv (createSession db u t d tm cap).2
    rcases createSession_state db u t d tm cap with he | ⟨n, _, he⟩
    · rw [he]; exact hc
    · rw [he]; exact capInv_insertWithCreator db u t d tm n hb hc
  | join sid u =>
    show CapInv (joinSession db sid u).2
    rcases joinSession_state db sid u with he | ⟨he, _, s, hf, hlt⟩
    · rw [he]; exact hc
    · rw [he]; exact capInv_attendeeInsert db sid u s hb hc hf hlt
  | leave sid u =>
    show CapInv (leaveSession db sid u).2
    rcases leaveSession_state db sid u with he | ⟨he, _, _, _⟩
    · rw [he]; exact hc
    · rw [he]; exact capInv_deletePair db sid u hc
  | delete sid u =>
    show CapInv (deleteSession db sid u).2
    rcases deleteSession_state db sid u with he | he
    · rw [he]; exact hc
    · rw [he]; exact capInv_sessionDelete db sid hc

theorem capInv_empty : CapInv DB.empty := by
  intro s hs
  simp [DB.empty] at hs

theorem capInv_run (db : DB) (ops : List Op) (hb : BaseInv db) (hc : CapInv db) :
    CapInv (run db ops) := by
  induction ops generalizing db with
  | nil => exact hc
  | cons op ops ih => exact ih (step db op) (baseInv_step db op hb) (capInv_step db op hb hc)

theorem joinSession_notFound (db : DB) (sid u : Nat)
    (hf : sessionFindUnique db sid = none) :
    joinSession db sid u = (.err 404 "Session not found", db) := by
  unfold joinSession
  rw [hf]

theorem joinSession_already (db : DB) (sid u : Nat) (s : SessionRec)
    (hf : sessionFindUnique db sid = some s) (hA : isAttendee db sid u = true) :
    joinSession db sid u = (.err 400 "Already joined this session", db) := by
  unfold joinSession
  rw [hf]
  have hA2 : (sessionAttendeesOf db sid).any (fun a => a.userId == u) = true := by
    rw [any_filter_userId]
    exact hA
  simp [hA2]

theorem joinSession_full (db : DB) (sid u : Nat) (s : SessionRec)
    (hf : sessionFindUnique db sid = some s) (hA : isAttendee db sid u = false)
    (hC : s.maxAttendees ≤ (attendeeCount db sid : Int)) :
    joinSession db sid u = (.err 400 "Session is full", db) := by
  unfold joinSession
  rw [hf]
  have hA2 : (sessionAttendeesOf db sid).any (fun a => a.userId == u) = false := by
    rw [any_filter_userId]
    exact hA
  have hC2 : s.maxAttendees ≤ ((sessionAttendeesOf db sid).length : Int) := hC
  simp [hA2, hC2]

theorem joinSession_inserts (db : DB) (sid u : Nat) (s : SessionRec)
    (hf : sessionFindUnique db sid = some s) (hA : isAttendee db sid u = false)
    (hC : (attendeeCount db sid : Int) < s.maxAttendees) :
    (joinSession db sid u).2 = sessionAttendeeInsert db sid u := by
  unfold joinSession
  rw [hf]
  have hA2 : (sessionAttendeesOf db sid).any (fun a => a.userId == u) = false := by
    rw [any_filter_userId]
    exact hA
  have hC2 : ¬ s.maxAttendees ≤ ((sessionAttendeesOf db sid).length : Int) := Int.not_le.mpr hC
  have hcr : sessionAttendeeCreate db sid u = .ok (sessionAttendeeInsert db sid u) := by
    unfold sessionAttendeeCreate
    rw [hf]
    have hA3 : db.sessionAttendees.any
        (fun a => a.sessionId == sid && a.userId == u) = false := hA
    simp [hA3]
  simp only [hA2, hC2, hcr, Bool.false_eq_true, if_false, if_neg hC2]
  cases sessionFindUnique (sessionAttendeeInsert db sid u) sid <;> rfl

theorem leaveSession_creator (db : DB) (sid u : Nat) (s : SessionRec)
    (hf : sessionFindUnique db sid = some s) (hcu : s.userId = u) :
    leaveSession db sid u = (.err 400 "Cannot leave a session you created", db) := by
  unfold leaveSession
  rw [hf]
  simp [hcu]

theorem countP_le_one_unique {α : Type} (p : α → Bool) (l : List α)
    (h : l.countP p ≤ 1) (a b : α) (ha : a ∈ l) (hb : b ∈ l)
    (hpa : p a = true) (hpb : p b = true) : a = b := by
  induction l with
  | nil => cases ha
  | cons x xs ih =>
    rw [List.countP_cons] at h
    have hzero : p x = true → xs.countP p = 0 := by
      intro hx
      have h1 : (if p x then 1 else 0) = 1 := by simp [hx]
      omega
    rcases List.mem_cons.mp ha with rfl | ha2
    · rcases List.mem_cons.mp hb with rfl | hb2
      · rfl
      · exact absurd hpb (List.countP_eq_zero.mp (hzero hpa) b hb2)
    · rcases List.mem_cons.mp hb with rfl | hb2
      · exact absurd hpa (List.countP_eq_zero.mp (hzero hpb) a ha2)
      · refine ih ?_ ha2 hb2
        by_cases hx : p x = true
        · exact absurd hpa (List.countP_eq_zero.mp (hzero hx) a ha2)
        · have h1 : (if p x then 1 else 0) = 0 := by simp [hx]
          omega

theorem likeExists_eq_false_iff (db : DB) (u aid : Nat) :
    likeExists db u aid = false ↔ likeCount db u aid = 0 := by
  rw [likeExists, likeCount]
  constructor
  · intro h
    refine List.countP_eq_zero.mpr ?_
    intro a ha hp
    cases hf : likeFindUnique db u aid with
    | some l =>
      rw [hf] at h
      cases h
    | none =>
      have hf2 : db.likes.find? (fun x => x.userId == u && x.artworkId == aid) = none := hf
      exact (List.find?_eq_none.mp hf2) a ha hp
  · intro h
    cases hf : likeFindUnique db u aid with
    | none => rfl
    | some l =>
      have hf2 : db.likes.find? (fun x => x.userId == u && x.artworkId == aid) = some l := hf
      have hmem := List.mem_of_find?_eq_some hf2
      have hpl := List.find?_some hf2
      exact absurd hpl (List.countP_eq_zero.mp h l hmem)

theorem toggleLike_delete (db : DB) (u aid : Nat) (l : LikeRec)
    (hfind : likeFindUnique db u aid = some l) (hU : likeCount db u aid ≤ 1) :
    toggleLike db u aid = (.ok "Unliked" false, likeDelete db l.id) ∧
    likeExists (likeDelete db l.id) u aid = false := by
  have hfind2 : db.likes.find? (fun x => x.userId == u && x.artworkId == aid) = some l := hfind
  have hmem : l ∈ db.likes := List.mem_of_find?_eq_some hfind2
  have hpl := List.find?_some hfind2
  constructor
  · unfold toggleLike
    rw [hfind]
  · rw [likeExists_eq_false_iff]
    rw [likeCount]
    refine List.countP_eq_zero.mpr ?_
    intro r hr hpr
    have hrmem : r ∈ db.likes := List.mem_of_mem_filter hr
    have hrl : r = l := countP_le_one_unique _ db.likes hU r l hrmem hmem hpr hpl
    have hrid : (r.id == l.id) = false := by
      have := (List.mem_filter.mp hr).2
      simpa using this
    rw [hrl] at hrid
    simp at hrid

theorem toggleLike_inserts (db : DB) (u aid : Nat)
    (hA : artworkExists db aid = true) (hfind : likeFindUnique db u aid = none) :
    toggleLike db u aid = (.ok "Liked" true, likeInsert db u aid) ∧
    likeExists (likeInsert db u aid) u aid = true ∧
    likeCount (likeInsert db u aid) u aid = likeCount db u aid + 1 := by
  have hcr : likeCreate db u aid = .ok (likeInsert db u aid) := by
    unfold likeCreate
    have h1 : (artworkFindUnique db aid).isNone = false := by
      cases hw : artworkFindUnique db aid with
      | some w => rfl
      | none =>
        rw [artworkExists, hw] at hA
        cases hA
    rw [h1, hfind]
    simp
  refine ⟨?_, ?_, ?_⟩
  · unfold toggleLike
    rw [hfind, hcr]
  · exact List.find?_isSome.mpr
      ⟨⟨db.nextLikeId, u, aid⟩, by simp [likeInsert], by simp⟩
  · rw [likeCount, likeCount]
    simp [likeInsert, List.countP_append, List.countP_cons]

/-- C1 counterexample: the create handler performs no capacity validation, so
a single create request with parsed capacity 0 yields a session whose
attendee count 1 already exceeds its maxAttendees 0 — the invariant of the
claim, quantified over every session, is false on the code as stated. -/
theorem capacity_invariant_unrestricted_fails :
    ¬ (∀ t ∈ (run DB.empty [.create 1 "s" "d" "t" (some 0)]).sessions,
        (attendeeCount (run DB.empty [.create 1 "s" "d" "t" (some 0)]) t.id : Int) ≤
          t.maxAttendees) := by
  decide

/-- C1 (amended to sessions with positive maximum attendee count): after any
sequence of create-session, join, leave and delete-session requests from the
empty store, every stored session with positive maxAttendees has at most
maxAttendees attendee relations; and for an existing session the caller has
not joined, the join handler rejects with the 400 "Session is full"
ConflictError whenever the current count is ≥ maxAttendees (defensively, not
only =), and only otherwise inserts the new attendee relation. -/
theorem capacity_invariant_positive_and_full_guard (ops : List Op) (db : DB)
    (sid u : Nat) (s : SessionRec) (hf : sessionFindUnique db sid = some s)
    (hA : isAttendee db sid u = false) :
    (∀ t ∈ (run DB.empty ops).sessions, 1 ≤ t.maxAttendees →
        (attendeeCount (run DB.empty ops) t.id : Int) ≤ t.maxAttendees)
    ∧ (s.maxAttendees ≤ (attendeeCount db sid : Int) →
        joinSession db sid u = (.err 400 "Session is full", db))
    ∧ ((attendeeCount db sid : Int) < s.maxAttendees →
        (joinSession db sid u).2 = sessionAttendeeInsert db sid u) := by
  refine ⟨capInv_run DB.empty ops baseInv_empty capInv_empty, ?_, ?_⟩
  · intro hC
    exact joinSession_full db sid u s hf hA hC
  · intro hC
    exact joinSession_inserts db sid u s hf hA hC

/-- Witness for the C1 theorem at a concrete store: a capacity-2 session is
full after the creator plus one joiner, and a third user's join is rejected
with 400 "Session is full". -/
theorem capacity_invariant_positive_and_full_guard_witness :
    ((attendeeCount (run DB.empty [.create 1 "s" "d" "t" (some 2), .join 1 2]) 1 : Int) ≤ 2)
    ∧ joinSession (run DB.empty [.create 1 "s" "d" "t" (some 2), .join 1 2]) 1 3 =
        (.err 400 "Session is full", run DB.empty [.create 1 "s" "d" "t" (some 2), .join 1 2]) := by
  have h := capacity_invariant_positive_and_full_guard
      [Op.create 1 "s" "d" "t" (some 2), Op.join 1 2]
      (run DB.empty [Op.create 1 "s" "d" "t" (some 2), Op.join 1 2]) 1 3
      ⟨1, "s", "d", "t", 2, 1⟩ (by decide) (by decide)
  exact ⟨h.1 ⟨1, "s", "d", "t", 2, 1⟩ (by decide) (by decide), h.2.1 (by decide)⟩

/-- C2: a join by a user who already has an attendee row in an existing
session fails with 400 "Already joined this session" (ConflictError) and
leaves the store unchanged; the store layer itself rejects a duplicate
(sessionId, userId) insert via the unique index; and after any request
sequence from the empty store every (sessionId, userId) pair occurs at most
once among the SessionAttendee rows. -/
theorem duplicate_join_rejected (db : DB) (sid u : Nat) (s : SessionRec)
    (hf : sessionFindUnique db sid = some s) (hA : isAttendee db sid u = true) :
    joinSession db sid u = (.err 400 "Already joined this session", db)
    ∧ sessionAttendeeCreate db sid u = .error "unique constraint violated"
    ∧ ∀ ops sid0 uid0, pairCount (run DB.empty ops) sid0 uid0 ≤ 1 := by
  refine ⟨joinSession_already db sid u s hf hA, ?_, ?_⟩
  · unfold sessionAttendeeCreate
    rw [hf]
    have hA2 : db.sessionAttendees.any
        (fun a => a.sessionId == sid && a.userId == u) = true := hA
    simp [hA2]
  · intro ops sid0 uid0
    exact (baseInv_run DB.empty ops baseInv_empty).pairs sid0 uid0

/-- Witness for the C2 theorem: the creator rejoining their own session is
rejected, and a pair that joined twice still has at most one row. -/
theorem duplicate_join_rejected_witness :
    joinSession (run DB.empty [.create 1 "s" "d" "t" (some 3)]) 1 1 =
      (.err 400 "Already joined this session", run DB.empty [.create 1 "s" "d" "t" (some 3)])
    ∧ pairCount (run DB.empty [.create 1 "s" "d" "t" (some 3), .join 1 2, .join 1 2]) 1 2 ≤ 1 := by
  have h := duplicate_join_rejected (run DB.empty [Op.create 1 "s" "d" "t" (some 3)]) 1 1
      ⟨1, "s", "d", "t", 3, 1⟩ (by decide) (by decide)
  exact ⟨h.1, h.2.2 [Op.create 1 "s" "d" "t" (some 3), Op.join 1 2, Op.join 1 2] 1 2⟩

/-- C3: create inserts the creator's attendee relation atomically with the
session and answers with an attendee list of size exactly one (the creator);
in every state reachable from the empty store every stored session's creator
is in its attendee set; and a creator's leave attempt fails with 400 "Cannot
leave a session you created" without mutating the store. -/
theorem creator_always_attendee (ops : List Op) (db : DB) (sid u : Nat)
    (t d tm : String) (n : Int) (s : SessionRec)
    (hf : sessionFindUnique db sid = some s) (hcu : s.userId = u) :
    (∀ s0 ∈ (run DB.empty ops).sessions,
        isAttendee (run DB.empty ops) s0.id s0.userId = true)
    ∧ (∃ s1 a1, createSession db u t d tm (some n) =
          (.ok s1 [a1], (sessionInsertWithCreator db u t d tm n).2.2)
        ∧ s1.userId = u ∧ a1.userId = u ∧ a1.sessionId = s1.id
        ∧ isAttendee (createSession db u t d tm (some n)).2 s1.id u = true)
    ∧ leaveSession db sid u = (.err 400 "Cannot leave a session you created", db) := by
  refine ⟨(baseInv_run DB.empty ops baseInv_empty).creator, ?_,
    leaveSession_creator db sid u s hf hcu⟩
  refine ⟨(sessionInsertWithCreator db u t d tm n).1,
    (sessionInsertWithCreator db u t d tm n).2.1, rfl, rfl, rfl, rfl, ?_⟩
  show isAttendee (sessionInsertWithCreator db u t d tm n).2.2 db.nextSessionId u = true
  simp [isAttendee, sessionInsertWithCreator, List.any_append]

/-- Witness for the C3 theorem: the creator is still an attendee after a
second user joined, and the creator's leave attempt is rejected. -/
theorem creator_always_attendee_witness :
    isAttendee (run DB.empty [.create 1 "s" "d" "t" (some 2), .join 1 2]) 1 1 = true
    ∧ leaveSession (run DB.empty [.create 1 "s" "d" "t" (some 2)]) 1 1 =
        (.err 400 "Cannot leave a session you created",
          run DB.empty [.create 1 "s" "d" "t" (some 2)]) := by
  have h := creator_always_attendee [Op.create 1 "s" "d" "t" (some 2), Op.join 1 2]
      (run DB.empty [Op.create 1 "s" "d" "t" (some 2)]) 1 1 "x" "y" "z" 5
      ⟨1, "s", "d", "t", 2, 1⟩ (by decide) (by decide)
  exact ⟨h.1 ⟨1, "s", "d", "t", 2, 1⟩ (by decide), h.2.2⟩

/-- C4 (code behavior at the failing input): a leave request for a session id
that references no session answers 500 "Failed to leave session" — the
handler dereferences the null lookup result and the catch block reports a
server error; there is no 404 branch, contrary to the claim's NotFound. -/
theorem leave_missing_session_500 (db : DB) (sid u : Nat)
    (hf : sessionFindUnique db sid = none) :
    leaveSession db sid u = (.err 500 "Failed to leave session", db) := by
  unfold leaveSession
  rw [hf]

/-- Witness for the C4 theorem on the empty store. -/
theorem leave_missing_session_500_witness :
    leaveSession DB.empty 3 7 = (.err 500 "Failed to leave session", DB.empty) :=
  leave_missing_session_500 DB.empty 3 7 rfl

/-- C5 (code behavior at the failing input): a create request whose parsed
capacity is 0 — not a positive integer — is not rejected with a
ValidationError: the Session row is created with maxAttendees 0 together with
its creator attendee row, and the handler answers with the created session. -/
theorem create_nonpositive_capacity_accepted :
    createSession DB.empty 1 "Breathwork" "2025-01-10" "18:00" (some 0) =
      (.ok ⟨1, "Breathwork", "2025-01-10", "18:00", 0, 1⟩ [⟨1, 1, 1⟩],
        ⟨[⟨1, "Breathwork", "2025-01-10", "18:00", 0, 1⟩], [⟨1, 1, 1⟩], [], [], [], 2, 2, 1⟩) :=
  rfl

/-- C6 (code behavior at the failing input): toggling a like on a target id
that references no artwork answers 500 "Server error" — the store rejects the
insert by foreign key and the handler's catch reports a server error; no
input to the like handler ever produces a 404 NotFound. -/
theorem toggle_missing_artwork_500 (db : DB) (u aid : Nat)
    (hA : artworkExists db aid = false) (hL : likeExists db u aid = false) :
    toggleLike db u aid = (.err 500 "Server error", db)
    ∧ ∀ db2 u2 aid2 m, (toggleLike db2 u2 aid2).1 ≠ LikeRes.err 404 m := by
  constructor
  · have hfind : likeFindUnique db u aid = none := by
      cases hf : likeFindUnique db u aid with
      | none => rfl
      | some l =>
        rw [likeExists, hf] at hL
        cases hL
    have hcrerr : likeCreate db u aid = .error "foreign key constraint violated" := by
      unfold likeCreate
      have h1 : (artworkFindUnique db aid).isNone = true := by
        cases hw : artworkFindUnique db aid with
        | none => rfl
        | some w =>
          rw [artworkExists, hw] at hA
          cases hA
      rw [h1]
      simp
    unfold toggleLike
    rw [hfind, hcrerr]
  · intro db2 u2 aid2 m
    unfold toggleLike
    cases hf : likeFindUnique db2 u2 aid2 with
    | some l => simp
    | none =>
      cases hc : likeCreate db2 u2 aid2 with
      | error e => simp
      | ok dbx => simp

/-- Witness for the C6 theorem on the empty store. -/
theorem toggle_missing_artwork_500_witness :
    toggleLike DB.empty 1 1 = (.err 500 "Server error", DB.empty) :=
  (toggle_missing_artwork_500 DB.empty 1 1 rfl rfl).1

/-- C7: for an existing artwork in a store satisfying the (userId, artworkId)
uniqueness constraint, a toggle deletes the like and answers liked false when
it is present, creates it and answers liked true when absent; and two toggles
in succession leave the existence of the like relation exactly as before. -/
theorem toggle_like_toggles (db : DB) (u aid : Nat)
    (hA : artworkExists db aid = true) (hU : likeCount db u aid ≤ 1) :
    (likeExists db u aid = true →
        (toggleLike db u aid).1 = .ok "Unliked" false ∧
        likeExists (toggleLike db u aid).2 u aid = false)
    ∧ (likeExists db u aid = false →
        (toggleLike db u aid).1 = .ok "Liked" true ∧
        likeExists (toggleLike db u aid).2 u aid = true)
    ∧ likeExists (toggleLike (toggleLike db u aid).2 u aid).2 u aid = likeExists db u aid := by
  cases hfind : likeFindUnique db u aid with
  | some l =>
    obtain ⟨heq, hgone⟩ := toggleLike_delete db u aid l hfind hU
    have horig : likeExists db u aid = true := by
      rw [likeExists, hfind]
      rfl
    refine ⟨fun _ => ⟨by rw [heq], by rw [heq]; exact hgone⟩, ?_, ?_⟩
    · intro hfalse
      rw [horig] at hfalse
      cases hfalse
    · rw [heq]
      have hA2 : artworkExists (likeDelete db l.id) aid = true := hA
      have hfind2 : likeFindUnique (likeDelete db l.id) u aid = none := by
        cases hf2 : likeFindUnique (likeDelete db l.id) u aid with
        | none => rfl
        | some l2 =>
          rw [likeExists, hf2] at hgone
          cases hgone
      obtain ⟨heq2, hback, _⟩ := toggleLike_inserts (likeDelete db l.id) u aid hA2 hfind2
      rw [heq2, horig]
      exact hback
  | none =>
    have horig : likeExists db u aid = false := by
      rw [likeExists, hfind]
      rfl
    obtain ⟨heq, hnew, hcnt⟩ := toggleLike_inserts db u aid hA hfind
    refine ⟨?_, fun _ => ⟨by rw [heq], by rw [heq]; exact hnew⟩, ?_⟩
    · intro htrue
      rw [horig] at htrue
      cases htrue
    · rw [heq]
      have hzero : likeCount db u aid = 0 := (likeExists_eq_false_iff db u aid).mp horig
      have hU2 : likeCount (likeInsert db u aid) u aid ≤ 1 := by
        rw [hcnt, hzero]
      cases hf2 : likeFindUnique (likeInsert db u aid) u aid with
      | none =>
        rw [likeExists, hf2] at hnew
        cases hnew
      | some l2 =>
        obtain ⟨heq2, hgone2⟩ := toggleLike_delete (likeInsert db u aid) u aid l2 hf2 hU2
        rw [heq2, horig]
        exact hgone2

/-- Witness for the C7 theorem: toggling a fresh (user, artwork) pair answers
liked true, and a second toggle restores the original absence. -/
theorem toggle_like_toggles_witness :
    (toggleLike ⟨[], [], [⟨1, "a", 1⟩], [], [], 1, 1, 1⟩ 2 1).1 = .ok "Liked" true
    ∧ likeExists (toggleLike (toggleLike ⟨[], [], [⟨1, "a", 1⟩], [], [], 1, 1, 1⟩ 2 1).2 2 1).2 2 1 =
        likeExists ⟨[], [], [⟨1, "a", 1⟩], [], [], 1, 1, 1⟩ 2 1 := by
  have h := toggle_like_toggles ⟨[], [], [⟨1, "a", 1⟩], [], [], 1, 1, 1⟩ 2 1 rfl (by decide)
  exact ⟨(h.2.1 rfl).1, h.2.2⟩

/-- C8: deleting a session answers 404 for a nonexistent id, 403 for a
non-creator with the store unchanged (the session and its attendee relations
remain), and for the creator removes every attendee relation of the session
and the session itself, so a subsequent lookup finds nothing. -/
theorem delete_session_contract (db : DB) (sid u : Nat) :
    (sessionFindUnique db sid = none →
        deleteSession db sid u = (.err 404 "Session not found", db))
    ∧ (∀ s, sessionFindUnique db sid = some s → s.userId ≠ u →
        deleteSession db sid u = (.err 403 "You can only delete your own sessions", db))
    ∧ (∀ s, sessionFindUnique db sid = some s → s.userId = u →
        (deleteSession db sid u).1 = .ok "Session deleted successfully"
        ∧ attendeeCount (deleteSession db sid u).2 sid = 0
        ∧ sessionFindUnique (deleteSession db sid u).2 sid = none) := by
  refine ⟨?_, ?_, ?_⟩
  · intro hf
    unfold deleteSession
    rw [hf]
  · intro s hf hne
    unfold deleteSession
    rw [hf]
    have hbne : (s.userId != u) = true := by simp [hne]
    simp [hbne]
  · intro s hf hcu
    have hbne : (s.userId != u) = false := by simp [hcu]
    have he : deleteSession db sid u =
        (.ok "Session deleted successfully",
          sessionDelete (sessionAttendeeDeleteManySession db sid) sid) := by
      unfold deleteSession
      rw [hf]
      simp [hbne]
    refine ⟨by rw [he], ?_, ?_⟩
    · rw [he, attendeeCount_eq_countP]
      refine List.countP_eq_zero.mpr ?_
      intro a ha hp
      have hmem : a ∈ db.sessionAttendees.filter (fun x => !(x.sessionId == sid)) := ha
      have := (List.mem_filter.mp hmem).2
      rw [hp] at this
      cases this
    · rw [he]
      refine List.find?_eq_none.mpr ?_
      intro x hx hp
      have hmem : x ∈ (sessionAttendeeDeleteManySession db sid).sessions.filter
          (fun t => !(t.id == sid)) := hx
      have := (List.mem_filter.mp hmem).2
      rw [hp] at this
      cases this

/-- Witness for the C8 theorem: a non-creator's delete is rejected with 403,
and after the creator's delete the session lookup is empty. -/
theorem delete_session_contract_witness :
    deleteSession (run DB.empty [.create 1 "s" "d" "t" (some 2)]) 1 2 =
      (.err 403 "You can only delete your own sessions",
        run DB.empty [.create 1 "s" "d" "t" (some 2)])
    ∧ sessionFindUnique (deleteSession (run DB.empty [.create 1 "s" "d" "t" (some 2)]) 1 1).2 1 =
        none := by
  have h := delete_session_contract (run DB.empty [Op.create 1 "s" "d" "t" (some 2)]) 1 2
  have h2 := delete_session_contract (run DB.empty [Op.create 1 "s" "d" "t" (some 2)]) 1 1
  exact ⟨h.2.1 ⟨1, "s", "d", "t", 2, 1⟩ (by decide) (by decide),
    (h2.2.2 ⟨1, "s", "d", "t", 2, 1⟩ (by decide) (by decide)).2.2⟩

/-- C9: a leave by a non-creator with no membership row in an existing
session succeeds as a no-op — 200 with the session and its current attendee
list — and the store is unchanged; no NotMember error is produced. -/
theorem leave_nonmember_noop (db : DB) (sid u : Nat) (s : SessionRec)
    (hf : sessionFindUnique db sid = some s) (hne : s.userId ≠ u)
    (hA : isAttendee db sid u = false) :
    leaveSession db sid u = (.ok s (sessionAttendeesOf db sid), db) := by
  have hdel : sessionAttendeeDeleteManyPair db sid u = db := by
    have hfl : db.sessionAttendees.filter
        (fun a => !(a.sessionId == sid && a.userId == u)) = db.sessionAttendees := by
      refine List.filter_eq_self.mpr ?_
      intro a ha
      have h2 := List.any_eq_false.mp hA a ha
      simp at h2 ⊢
      tauto
    rw [sessionAttendeeDeleteManyPair, hfl]
  unfold leaveSession
  rw [hf]
  have hbe : (s.userId == u) = false := by simp [hne]
  simp only [hbe, Bool.false_eq_true, if_false]
  rw [hdel, hf]

/-- Witness for the C9 theorem: a stranger leaving a session they never
joined receives the unchanged session and attendee list. -/
theorem leave_nonmember_noop_witness :
    leaveSession (run DB.empty [.create 1 "s" "d" "t" (some 2)]) 1 2 =
      (.ok ⟨1, "s", "d", "t", 2, 1⟩ [⟨1, 1, 1⟩],
        run DB.empty [.create 1 "s" "d" "t" (some 2)]) := by
  have h := leave_nonmember_noop (run DB.empty [Op.create 1 "s" "d" "t" (some 2)]) 1 2
      ⟨1, "s", "d", "t", 2, 1⟩ (by decide) (by decide) (by decide)
  rw [h]
  decide

/-- C10: deleting an artwork answers 404 when it is absent and 403 for a
non-owner, in both cases leaving likes, comments and artworks unchanged; a
successful owner delete removes every Like row and every Comment row
referencing the artwork and then the artwork itself. -/
theorem delete_artwork_contract (db : DB) (aid u : Nat) :
    (artworkFindUnique db aid = none →
        deleteArtwork db aid u = (.err 404 "Artwork not found", db))
    ∧ (∀ w, artworkFindUnique db aid = some w → w.userId ≠ u →
        deleteArtwork db aid u = (.err 403 "You can only delete your own artworks", db))
    ∧ (∀ w, artworkFindUnique db aid = some w → w.userId = u →
        (deleteArtwork db aid u).1 = .ok "Artwork deleted successfully"
        ∧ (deleteArtwork db aid u).2.likes.all (fun l => !(l.artworkId == aid)) = true
        ∧ (deleteArtwork db aid u).2.comments.all (fun c => !(c.artworkId == aid)) = true
        ∧ artworkFindUnique (deleteArtwork db aid u).2 aid = none) := by
  refine ⟨?_, ?_, ?_⟩
  · intro hf
    unfold deleteArtwork
    rw [hf]
  · intro w hf hne
    unfold deleteArtwork
    rw [hf]
    have hbne : (w.userId != u) = true := by simp [hne]
    simp [hbne]
  · intro w hf hcu
    have hbne : (w.userId != u) = false := by simp [hcu]
    have he : deleteArtwork db aid u =
        (.ok "Artwork deleted successfully",
          artworkDelete (commentDeleteManyArtwork (likeDeleteManyArtwork db aid) aid) aid) := by
      unfold deleteArtwork
      rw [hf]
      simp [hbne]
    refine ⟨by rw [he], ?_, ?_, ?_⟩
    · rw [he]
      refine List.all_eq_true.mpr ?_
      intro l hl
      exact (List.mem_filter.mp hl).2
    · rw [he]
      refine List.all_eq_true.mpr ?_
      intro c hc
      exact (List.mem_filter.mp hc).2
    · rw [he]
      refine List.find?_eq_none.mpr ?_
      intro x hx hp
      have := (List.mem_filter.mp hx).2
      rw [hp] at this
      cases this

/-- Witness for the C10 theorem on a store with one artwork, one like and one
comment: the owner's delete leaves no like or comment referencing it and no
artwork row, and a non-owner's delete is rejected with the store unchanged. -/
theorem delete_artwork_contract_witness :
    ((deleteArtwork ⟨[], [], [⟨1, "a", 1⟩], [⟨1, 2, 1⟩], [⟨1, "hi", 2, 1⟩], 1, 1, 2⟩ 1 1).2.likes.all
        (fun l => !(l.artworkId == 1)) = true)
    ∧ artworkFindUnique
        (deleteArtwork ⟨[], [], [⟨1, "a", 1⟩], [⟨1, 2, 1⟩], [⟨1, "hi", 2, 1⟩], 1, 1, 2⟩ 1 1).2 1 =
        none
    ∧ deleteArtwork ⟨[], [], [⟨1, "a", 1⟩], [⟨1, 2, 1⟩], [⟨1, "hi", 2, 1⟩], 1, 1, 2⟩ 1 2 =
        (.err 403 "You can only delete your own artworks",
          ⟨[], [], [⟨1, "a", 1⟩], [⟨1, 2, 1⟩], [⟨1, "hi", 2, 1⟩], 1, 1, 2⟩) := by
  have h := delete_artwork_contract
      ⟨[], [], [⟨1, "a", 1⟩], [⟨1, 2, 1⟩], [⟨1, "hi", 2, 1⟩], 1, 1, 2⟩ 1 1
  have h2 := delete_artwork_contract
      ⟨[], [], [⟨1, "a", 1⟩], [⟨1, 2, 1⟩], [⟨1, "hi", 2, 1⟩], 1, 1, 2⟩ 1 2
  exact ⟨(h.2.2 ⟨1, "a", 1⟩ rfl rfl).2.1, (h.2.2 ⟨1, "a", 1⟩ rfl rfl).2.2.2,
    h2.2.1 ⟨1, "a", 1⟩ rfl (by decide)⟩

end Heartspace
